import Mathlib

/-
Shallow embedding of the UDP socket core from src/src/socket/udp.rs:
the Buffer contract, the single-slot UnitaryBuffer, and the Socket with its
application-facing send/recv and stack-facing collect/dispatch operations.
Byte slices are modelled as List Nat; a closure mutating a byte region is
modelled as a function from the region contents to the new region contents
paired with its result; machine results Result are modelled as Except.
-/

set_option autoImplicit false

namespace Udp

/-- Modelled from the spec: the error kinds consumed by the socket core
(Exhausted, Rejected), plus callback-originated errors which are propagated
verbatim; these live in the external Error enum, not under src. -/
inductive Error where
  | Exhausted : Error
  | Rejected : Error
  | Other : Nat → Error
  deriving DecidableEq, Repr

/-- Modelled from the spec: an InternetAddress has a distinguished Invalid
(default) variant; concrete addresses are abstracted as a Nat, with the
wildcard address 0 being the unspecified one. The wire module carrying the
real type is not under src. -/
inductive Address where
  | Invalid : Address
  | Ipv4 : Nat → Address
  deriving DecidableEq, Repr

/-- Modelled from the spec: the is_unspecified predicate on addresses holds
exactly on the wildcard concrete address. -/
def Address.is_unspecified : Address → Bool
  | Address.Ipv4 0 => true
  | _ => false

/-- Modelled from the spec: an InternetEndpoint is a pair of address and
port, with the default equal to the pair of Invalid and 0. -/
structure Endpoint where
  addr : Address
  port : Nat
  deriving DecidableEq, Repr

/-- Modelled from the spec: the default endpoint, Default::default(). -/
def defaultEndpoint : Endpoint := { addr := Address.Invalid, port := 0 }

/-- Modelled from the spec: UdpRepr is the abstract parsed datagram with
source port, destination port and payload octets. -/
structure UdpRepr where
  src_port : Nat
  dst_port : Nat
  payload : List Nat
  deriving DecidableEq, Repr

/-- Writes the octets of the second list over the initial bytes of the first
list, keeping the length of the first list: the model of
slice[..r.len()].copy_from_slice(r). -/
def overwrite : List Nat → List Nat → List Nat
  | s, [] => s
  | [], _ => []
  | _ :: s, r :: rs => r :: overwrite s rs

/-- The UnitaryBuffer of udp.rs lines 57 to 61: an endpoint, the borrowed
storage and a size field. -/
structure UnitaryBuffer where
  endpoint : Endpoint
  storage : List Nat
  size : Nat
  deriving DecidableEq, Repr

/-- UnitaryBuffer::new, udp.rs lines 65 to 71: default endpoint, the given
storage, size 0. -/
def UnitaryBuffer.new (storage : List Nat) : UnitaryBuffer :=
  { endpoint := defaultEndpoint, storage := storage, size := 0 }

/-- UnitaryBuffer::enqueue, udp.rs lines 75 to 90. When the slot is empty
(address Invalid) and the requested size fits the storage, the closure runs
on the first size octets; its region mutation always lands in storage, its
error is propagated with the endpoint and size fields untouched, and on its
success the endpoint field is set to the given endpoint. Note the source
never writes the size field. Otherwise Exhausted, state untouched. -/
def UnitaryBuffer.enqueue {R : Type} (buf : UnitaryBuffer) (endpoint : Endpoint)
    (size : Nat) (f : List Nat → List Nat × Except Error R) :
    Except Error R × UnitaryBuffer :=
  if buf.endpoint.addr = Address.Invalid ∧ size ≤ buf.storage.length then
    match (f (buf.storage.take size)).2 with
    | Except.ok r =>
        (Except.ok r,
         { buf with endpoint := endpoint,
                    storage := overwrite buf.storage ((f (buf.storage.take size)).1.take size) })
    | Except.error e =>
        (Except.error e,
         { buf with
             storage := overwrite buf.storage ((f (buf.storage.take size)).1.take size) })
  else
    (Except.error Error.Exhausted, buf)

/-- UnitaryBuffer::dequeue, udp.rs lines 92 to 106. Empty slot: Exhausted.
Occupied: the closure is applied once to the stored endpoint and the first
size octets; the endpoint field is reset to default whatever the closure
returned, and its result is propagated. -/
def UnitaryBuffer.dequeue {R : Type} (buf : UnitaryBuffer)
    (f : Endpoint → List Nat → Except Error R) : Except Error R × UnitaryBuffer :=
  if buf.endpoint.addr = Address.Invalid then
    (Except.error Error.Exhausted, buf)
  else
    (f buf.endpoint (buf.storage.take buf.size),
     { buf with endpoint := defaultEndpoint })

/-- One buffer operation, for reasoning about arbitrary call sequences. -/
inductive BufOp where
  | enq : Endpoint → Nat → (List Nat → List Nat × Except Error Unit) → BufOp
  | deq : (Endpoint → List Nat → Except Error Unit) → BufOp

/-- Applies one buffer operation, keeping only the resulting state. -/
def applyOp (buf : UnitaryBuffer) : BufOp → UnitaryBuffer
  | BufOp.enq ep sz f => (buf.enqueue ep sz f).2
  | BufOp.deq f => (buf.dequeue f).2

/-- Runs a sequence of buffer operations from the given state. -/
def runOps (buf : UnitaryBuffer) (ops : List BufOp) : UnitaryBuffer :=
  ops.foldl applyOp buf

/-- The Socket of udp.rs lines 110 to 114, specialised to unitary buffers on
both directions. -/
structure Socket where
  endpoint : Endpoint
  rx_buffer : UnitaryBuffer
  tx_buffer : UnitaryBuffer
  deriving DecidableEq, Repr

/-- Socket::send, udp.rs lines 129 to 132: delegate to tx_buffer.enqueue. -/
def Socket.send {R : Type} (s : Socket) (endpoint : Endpoint) (size : Nat)
    (f : List Nat → List Nat × Except Error R) : Except Error R × Socket :=
  ((s.tx_buffer.enqueue endpoint size f).1,
   { s with tx_buffer := (s.tx_buffer.enqueue endpoint size f).2 })

/-- Socket::send_slice, udp.rs lines 138 to 142: enqueue with the length of
the data, the closure copying the data into the reserved region. -/
def Socket.send_slice (s : Socket) (endpoint : Endpoint) (data : List Nat) :
    Except Error Unit × Socket :=
  s.send endpoint data.length (fun _buffer => (data, Except.ok ()))

/-- Socket::recv, udp.rs lines 145 to 148: delegate to rx_buffer.dequeue. -/
def Socket.recv {R : Type} (s : Socket)
    (f : Endpoint → List Nat → Except Error R) : Except Error R × Socket :=
  ((s.rx_buffer.dequeue f).1, { s with rx_buffer := (s.rx_buffer.dequeue f).2 })

/-- The closure passed by Socket::recv_slice to dequeue, udp.rs lines 155
to 159; its result carries the mutated out slice. -/
def recvSliceClosure (data : List Nat) (endpoint : Endpoint) (buffer : List Nat) :
    Except Error ((Nat × Endpoint) × List Nat) :=
  if data.length < buffer.length then Except.error Error.Exhausted
  else Except.ok ((buffer.length, endpoint), overwrite data buffer)

/-- Socket::recv_slice, udp.rs lines 154 to 160: dequeue with the closure
above; it fails with Exhausted when the out slice is shorter than the packet
and otherwise copies the packet into the out slice and returns its length
with the source endpoint. Returns the result, the possibly mutated out slice
and the new socket state. -/
def Socket.recv_slice (s : Socket) (data : List Nat) :
    Except Error (Nat × Endpoint) × List Nat × Socket :=
  match (s.rx_buffer.dequeue (recvSliceClosure data)).1 with
  | Except.error e =>
      (Except.error e, data,
       { s with rx_buffer := (s.rx_buffer.dequeue (recvSliceClosure data)).2 })
  | Except.ok rd =>
      (Except.ok rd.1, rd.2,
       { s with rx_buffer := (s.rx_buffer.dequeue (recvSliceClosure data)).2 })

/-- Socket::collect, udp.rs lines 168 to 178: reject on port mismatch, then
on address mismatch for a concrete bind, otherwise enqueue the peer endpoint
into rx with the payload length, the closure copying the payload. -/
def Socket.collect (s : Socket) (src_addr dst_addr : Address) (repr : UdpRepr) :
    Except Error Unit × Socket :=
  if repr.dst_port ≠ s.endpoint.port then (Except.error Error.Rejected, s)
  else if s.endpoint.addr.is_unspecified = false ∧ s.endpoint.addr ≠ dst_addr then
    (Except.error Error.Rejected, s)
  else
    ((s.rx_buffer.enqueue { addr := src_addr, port := repr.src_port }
        repr.payload.length (fun _buffer => (repr.payload, Except.ok ()))).1,
     { s with
         rx_buffer := (s.rx_buffer.enqueue { addr := src_addr, port := repr.src_port }
           repr.payload.length (fun _buffer => (repr.payload, Except.ok ()))).2 })

/-- The closure passed by Socket::dispatch to dequeue, udp.rs lines 190 to
196: hand the callback the socket address, the stored peer address and the
UdpRepr built from the socket port, the peer port and the dequeued octets. -/
def dispatchClosure {R : Type} (src_endpoint : Endpoint)
    (f : Address → Address → UdpRepr → Except Error R)
    (dst_endpoint : Endpoint) (buffer : List Nat) : Except Error R :=
  f src_endpoint.addr dst_endpoint.addr
    { src_port := src_endpoint.port, dst_port := dst_endpoint.port,
      payload := buffer }

/-- Socket::dispatch, udp.rs lines 187 to 197: dequeue from tx with the
closure above, built over the socket endpoint. -/
def Socket.dispatch {R : Type} (s : Socket)
    (f : Address → Address → UdpRepr → Except Error R) : Except Error R × Socket :=
  ((s.tx_buffer.dequeue (dispatchClosure s.endpoint f)).1,
   { s with tx_buffer := (s.tx_buffer.dequeue (dispatchClosure s.endpoint f)).2 })

/-- Concrete fixture: a socket bound to the wildcard address and port 6969
with two octets of tx storage, as in scenario S1 of the spec. -/
def sockS1 : Socket :=
  { endpoint := { addr := Address.Ipv4 0, port := 6969 },
    rx_buffer := UnitaryBuffer.new [],
    tx_buffer := UnitaryBuffer.new [0, 0] }

/-- Concrete fixture: the peer endpoint of scenario S1. -/
def peerS1 : Endpoint := { addr := Address.Ipv4 2, port := 53 }

/-- Concrete fixture: a socket bound to the wildcard address and port 6969
with four octets of rx storage, as in scenario S2 of the spec. -/
def sockS2 : Socket :=
  { endpoint := { addr := Address.Ipv4 0, port := 6969 },
    rx_buffer := UnitaryBuffer.new [0, 0, 0, 0],
    tx_buffer := UnitaryBuffer.new [] }

/-- Concrete fixture: the datagram of scenario S2. -/
def reprS2 : UdpRepr := { src_port := 1234, dst_port := 6969, payload := [1, 2, 3] }

/-- Concrete fixture: an occupied buffer holding the two octets 7 and 8. -/
def occupiedBuf : UnitaryBuffer :=
  { endpoint := { addr := Address.Ipv4 3, port := 4 }, storage := [7, 8, 9], size := 2 }

/-- Concrete fixture: an occupied buffer whose size field is zero, the only
occupied shape the implementation ever reaches. -/
def zeroSizeBuf : UnitaryBuffer :=
  { endpoint := { addr := Address.Ipv4 3, port := 4 }, storage := [7, 8, 9], size := 0 }

/-- Concrete fixture: a socket whose rx buffer is the occupied buffer. -/
def sockRx : Socket :=
  { endpoint := { addr := Address.Ipv4 0, port := 9 },
    rx_buffer := occupiedBuf,
    tx_buffer := UnitaryBuffer.new [] }

theorem overwrite_length (s r : List Nat) : (overwrite s r).length = s.length := by
  induction s generalizing r with
  | nil => cases r <;> rfl
  | cons a s ih =>
      cases r with
      | nil => rfl
      | cons b rs => simpa [overwrite] using ih rs

theorem overwrite_take (s r : List Nat) (h : r.length ≤ s.length) :
    (overwrite s r).take r.length = r := by
  induction s generalizing r with
  | nil =>
      cases r with
      | nil => rfl
      | cons b rs => simp at h
  | cons a s ih =>
      cases r with
      | nil => rfl
      | cons b rs =>
          show b :: (overwrite s rs).take rs.length = b :: rs
          rw [ih rs (by simpa using h)]

theorem UnitaryBuffer.enqueue_of_ok {R : Type} (buf : UnitaryBuffer)
    (ep : Endpoint) (size : Nat) (f : List Nat → List Nat × Except Error R) (r : R)
    (hempty : buf.endpoint.addr = Address.Invalid)
    (hsize : size ≤ buf.storage.length)
    (hf : (f (buf.storage.take size)).2 = Except.ok r) :
    buf.enqueue ep size f =
      (Except.ok r,
       { buf with endpoint := ep,
                  storage := overwrite buf.storage ((f (buf.storage.take size)).1.take size) }) := by
  unfold UnitaryBuffer.enqueue
  rw [if_pos ⟨hempty, hsize⟩, hf]

theorem UnitaryBuffer.enqueue_of_error {R : Type} (buf : UnitaryBuffer)
    (ep : Endpoint) (size : Nat) (f : List Nat → List Nat × Except Error R) (e : Error)
    (hempty : buf.endpoint.addr = Address.Invalid)
    (hsize : size ≤ buf.storage.length)
    (hf : (f (buf.storage.take size)).2 = Except.error e) :
    buf.enqueue ep size f =
      (Except.error e,
       { buf with
           storage := overwrite buf.storage ((f (buf.storage.take size)).1.take size) }) := by
  unfold UnitaryBuffer.enqueue
  rw [if_pos ⟨hempty, hsize⟩, hf]

theorem UnitaryBuffer.enqueue_of_unavailable {R : Type} (buf : UnitaryBuffer)
    (ep : Endpoint) (size : Nat) (f : List Nat → List Nat × Except Error R)
    (h : ¬(buf.endpoint.addr = Address.Invalid ∧ size ≤ buf.storage.length)) :
    buf.enqueue ep size f = (Except.error Error.Exhausted, buf) := by
  unfold UnitaryBuffer.enqueue
  rw [if_neg h]

theorem UnitaryBuffer.dequeue_of_occupied {R : Type} (buf : UnitaryBuffer)
    (f : Endpoint → List Nat → Except Error R)
    (h : buf.endpoint.addr ≠ Address.Invalid) :
    buf.dequeue f =
      (f buf.endpoint (buf.storage.take buf.size),
       { buf with endpoint := defaultEndpoint }) := by
  unfold UnitaryBuffer.dequeue
  rw [if_neg h]

theorem UnitaryBuffer.dequeue_of_empty {R : Type} (buf : UnitaryBuffer)
    (f : Endpoint → List Nat → Except Error R)
    (h : buf.endpoint.addr = Address.Invalid) :
    buf.dequeue f = (Except.error Error.Exhausted, buf) := by
  unfold UnitaryBuffer.dequeue
  rw [if_pos h]

theorem UnitaryBuffer.enqueue_size {R : Type} (buf : UnitaryBuffer)
    (ep : Endpoint) (size : Nat) (f : List Nat → List Nat × Except Error R) :
    ((buf.enqueue ep size f).2).size = buf.size := by
  unfold UnitaryBuffer.enqueue
  split
  · split <;> rfl
  · rfl

theorem UnitaryBuffer.dequeue_size {R : Type} (buf : UnitaryBuffer)
    (f : Endpoint → List Nat → Except Error R) :
    ((buf.dequeue f).2).size = buf.size := by
  unfold UnitaryBuffer.dequeue
  split <;> rfl

theorem applyOp_size (buf : UnitaryBuffer) (op : BufOp) :
    (applyOp buf op).size = buf.size := by
  cases op with
  | enq ep sz f => exact UnitaryBuffer.enqueue_size buf ep sz f
  | deq f => exact UnitaryBuffer.dequeue_size buf f

theorem runOps_size (buf : UnitaryBuffer) (ops : List BufOp) :
    (runOps buf ops).size = buf.size := by
  induction ops generalizing buf with
  | nil => rfl
  | cons op ops ih =>
      have h : runOps buf (op :: ops) = runOps (applyOp buf op) ops := rfl
      rw [h, ih, applyOp_size]

theorem UnitaryBuffer.enqueue_ok_endpoint {R : Type} (buf : UnitaryBuffer)
    (ep : Endpoint) (size : Nat) (f : List Nat → List Nat × Except Error R) (r : R)
    (hok : (buf.enqueue ep size f).1 = Except.ok r) :
    ((buf.enqueue ep size f).2).endpoint = ep := by
  by_cases hc : buf.endpoint.addr = Address.Invalid ∧ size ≤ buf.storage.length
  · cases he : (f (buf.storage.take size)).2 with
    | error e =>
        rw [UnitaryBuffer.enqueue_of_error buf ep size f e hc.1 hc.2 he] at hok
        exact Except.noConfusion hok
    | ok r2 =>
        rw [UnitaryBuffer.enqueue_of_ok buf ep size f r2 hc.1 hc.2 he]
  · rw [UnitaryBuffer.enqueue_of_unavailable buf ep size f hc] at hok
    exact Except.noConfusion hok

theorem Socket.recv_slice_of_error (s : Socket) (data : List Nat) (e : Error)
    (h : (s.rx_buffer.dequeue (recvSliceClosure data)).1 = Except.error e) :
    s.recv_slice data =
      (Except.error e, data,
       { s with rx_buffer := (s.rx_buffer.dequeue (recvSliceClosure data)).2 }) := by
  unfold Socket.recv_slice
  rw [h]

theorem Socket.recv_slice_of_ok (s : Socket) (data : List Nat)
    (rd : (Nat × Endpoint) × List Nat)
    (h : (s.rx_buffer.dequeue (recvSliceClosure data)).1 = Except.ok rd) :
    s.recv_slice data =
      (Except.ok rd.1, rd.2,
       { s with rx_buffer := (s.rx_buffer.dequeue (recvSliceClosure data)).2 }) := by
  unfold Socket.recv_slice
  rw [h]

/-- C1: at the concrete failing input, enqueue on an empty two-octet buffer
with size 2 and a succeeding closure returns Ok and sets the endpoint field,
but the size field stays 0 instead of being set to the given size 2, against
the spec sentence that enqueue sets size to the given size. -/
theorem C1_enqueue_never_sets_size :
    (UnitaryBuffer.new [0, 0]).enqueue { addr := Address.Ipv4 1, port := 5 } 2
        (fun _ => ([0xAA, 0xBB], Except.ok ())) =
      (Except.ok (),
       { endpoint := { addr := Address.Ipv4 1, port := 5 },
         storage := [0xAA, 0xBB], size := 0 }) := rfl

/-- C2: at the concrete failing input, enqueue writes the one-octet payload
into storage, yet the following dequeue hands its callback the empty slice
instead of that payload, so the enqueue dequeue round trip does not return
the payload octets. -/
theorem C2_roundtrip_loses_payload :
    ((((UnitaryBuffer.new [0]).enqueue { addr := Address.Ipv4 2, port := 7 } 1
        (fun _ => ([0xAA], Except.ok ()))).2).dequeue
        (fun e b => Except.ok (e, b))).1 =
      Except.ok ({ addr := Address.Ipv4 2, port := 7 }, ([] : List Nat)) ∧
    (((UnitaryBuffer.new [0]).enqueue { addr := Address.Ipv4 2, port := 7 } 1
        (fun _ => ([0xAA], Except.ok ()))).2).storage = [0xAA] ∧
    ([] : List Nat) ≠ [0xAA] := ⟨rfl, rfl, by simp⟩

/-- C3: at the concrete failing input of scenario S1, after send_slice of the
two-octet payload to the peer, dispatch invokes the callback with the right
addresses and ports but with an empty payload instead of the enqueued octets,
although the octets sit in the tx storage. -/
theorem C3_dispatch_empty_payload :
    ((((sockS1.send_slice peerS1 [0xAA, 0xBB]).2).dispatch
        (fun sa da r => Except.ok (sa, da, r))).1 =
      Except.ok (Address.Ipv4 0, Address.Ipv4 2,
        { src_port := 6969, dst_port := 53, payload := ([] : List Nat) })) ∧
    (((sockS1.send_slice peerS1 [0xAA, 0xBB]).2).tx_buffer.storage = [0xAA, 0xBB]) :=
  ⟨rfl, rfl⟩

/-- C6: when an enqueue on an empty UnitaryBuffer runs its closure and the
closure fails, that same error is propagated, the endpoint and size fields
are unchanged, and a subsequent dequeue returns Exhausted. -/
theorem C6_enqueue_rollback {R : Type} (buf : UnitaryBuffer) (ep : Endpoint)
    (size : Nat) (f : List Nat → List Nat × Except Error R) (e : Error)
    (hempty : buf.endpoint.addr = Address.Invalid)
    (hsize : size ≤ buf.storage.length)
    (hf : (f (buf.storage.take size)).2 = Except.error e) :
    (buf.enqueue ep size f).1 = Except.error e ∧
    ((buf.enqueue ep size f).2).endpoint = buf.endpoint ∧
    ((buf.enqueue ep size f).2).size = buf.size ∧
    (∀ {S : Type} (g : Endpoint → List Nat → Except Error S),
      ((buf.enqueue ep size f).2).dequeue g =
        (Except.error Error.Exhausted, (buf.enqueue ep size f).2)) := by
  rw [UnitaryBuffer.enqueue_of_error buf ep size f e hempty hsize hf]
  refine ⟨rfl, rfl, rfl, ?_⟩
  intro S g
  exact UnitaryBuffer.dequeue_of_empty _ g hempty

/-- Witness for C6 at a concrete buffer and failing closure. -/
theorem C6_enqueue_rollback_witness :
    ((UnitaryBuffer.new [0, 0]).enqueue { addr := Address.Ipv4 1, port := 5 } 1
        (fun _ => ([9], (Except.error (Error.Other 42) : Except Error Unit)))).1 =
      Except.error (Error.Other 42) :=
  (C6_enqueue_rollback (UnitaryBuffer.new [0, 0]) { addr := Address.Ipv4 1, port := 5 } 1
      (fun _ => ([9], (Except.error (Error.Other 42) : Except Error Unit))) (Error.Other 42)
      rfl (by decide) rfl).1

/-- C7: for an occupied UnitaryBuffer, dequeue applies the closure once to
the stored endpoint and the stored octets, propagates exactly the closure
result, Ok or Err, and leaves the buffer empty; for an empty buffer it
returns Exhausted with the state unchanged and the closure unused. -/
theorem C7_dequeue_commit {R : Type} (buf : UnitaryBuffer)
    (f : Endpoint → List Nat → Except Error R) :
    (buf.endpoint.addr ≠ Address.Invalid →
      (buf.dequeue f).1 = f buf.endpoint (buf.storage.take buf.size) ∧
      (buf.dequeue f).2 = { buf with endpoint := defaultEndpoint } ∧
      ((buf.dequeue f).2).endpoint.addr = Address.Invalid) ∧
    (buf.endpoint.addr = Address.Invalid →
      buf.dequeue f = (Except.error Error.Exhausted, buf)) := by
  constructor
  · intro h
    rw [UnitaryBuffer.dequeue_of_occupied buf f h]
    exact ⟨rfl, rfl, rfl⟩
  · intro h
    exact UnitaryBuffer.dequeue_of_empty buf f h

/-- Witness for C7 at the concrete occupied buffer. -/
theorem C7_dequeue_commit_witness :
    (occupiedBuf.dequeue (fun e b => Except.ok (e, b))).1 =
      Except.ok (occupiedBuf.endpoint, occupiedBuf.storage.take occupiedBuf.size) :=
  ((C7_dequeue_commit occupiedBuf (fun e b => Except.ok (e, b))).1 (by decide)).1

/-- C8 counterexample: with the default endpoint, whose address is Invalid,
two successive enqueues on the same unitary buffer both return Ok, so an
enqueue after a successful enqueue does not always return Exhausted. -/
theorem C8_counterexample :
    ((UnitaryBuffer.new []).enqueue defaultEndpoint 0
        (fun _ => (([] : List Nat), Except.ok ()))).1 = Except.ok () ∧
    ((((UnitaryBuffer.new []).enqueue defaultEndpoint 0
        (fun _ => (([] : List Nat), Except.ok ()))).2).enqueue defaultEndpoint 0
        (fun _ => (([] : List Nat), Except.ok ()))).1 = Except.ok () :=
  ⟨rfl, rfl⟩

/-- C8 amended: for every endpoint whose address is not Invalid, after a
successful enqueue every further enqueue, whatever its endpoint, size and
closure, returns Exhausted and leaves the buffer unchanged, the closure
unused. -/
theorem C8_mutual_exclusion {R S : Type} (buf : UnitaryBuffer) (ep : Endpoint)
    (size : Nat) (f : List Nat → List Nat × Except Error R) (r : R)
    (hep : ep.addr ≠ Address.Invalid)
    (hok : (buf.enqueue ep size f).1 = Except.ok r)
    (ep2 : Endpoint) (size2 : Nat) (g : List Nat → List Nat × Except Error S) :
    ((buf.enqueue ep size f).2).enqueue ep2 size2 g =
      (Except.error Error.Exhausted, (buf.enqueue ep size f).2) := by
  apply UnitaryBuffer.enqueue_of_unavailable
  intro hcon
  apply hep
  have h2 := UnitaryBuffer.enqueue_ok_endpoint buf ep size f r hok
  rw [h2] at hcon
  exact hcon.1

/-- Witness for C8 amended at a concrete buffer and endpoints. -/
theorem C8_mutual_exclusion_witness :
    (((UnitaryBuffer.new [0]).enqueue { addr := Address.Ipv4 1, port := 5 } 1
        (fun _ => ([9], Except.ok ()))).2).enqueue { addr := Address.Ipv4 6, port := 7 } 0
        (fun _ => (([] : List Nat), Except.ok ())) =
      (Except.error Error.Exhausted,
       ((UnitaryBuffer.new [0]).enqueue { addr := Address.Ipv4 1, port := 5 } 1
          (fun _ => ([9], Except.ok ()))).2) :=
  C8_mutual_exclusion (UnitaryBuffer.new [0]) { addr := Address.Ipv4 1, port := 5 } 1
    (fun _ => ([9], Except.ok ())) () (by decide) rfl
    { addr := Address.Ipv4 6, port := 7 } 0 (fun _ => (([] : List Nat), Except.ok ()))

/-- C4: collect rejects with Rejected on a port mismatch, rejects with
Rejected on an address mismatch for a concrete bind, and otherwise enqueues
into rx the peer endpoint built from the source address and source port with
the payload length, copying the payload into storage, returning Ok when rx
was free and the payload fits and propagating Exhausted otherwise with the
socket unchanged. -/
theorem C4_collect_filter_and_enqueue (s : Socket) (src_addr dst_addr : Address)
    (repr : UdpRepr) :
    (repr.dst_port ≠ s.endpoint.port →
      s.collect src_addr dst_addr repr = (Except.error Error.Rejected, s)) ∧
    (repr.dst_port = s.endpoint.port →
      s.endpoint.addr.is_unspecified = false → s.endpoint.addr ≠ dst_addr →
      s.collect src_addr dst_addr repr = (Except.error Error.Rejected, s)) ∧
    (repr.dst_port = s.endpoint.port →
      (s.endpoint.addr.is_unspecified = true ∨ s.endpoint.addr = dst_addr) →
      s.rx_buffer.endpoint.addr = Address.Invalid →
      repr.payload.length ≤ s.rx_buffer.storage.length →
      (s.collect src_addr dst_addr repr).1 = Except.ok () ∧
      ((s.collect src_addr dst_addr repr).2).rx_buffer.endpoint =
        { addr := src_addr, port := repr.src_port } ∧
      ((s.collect src_addr dst_addr repr).2).rx_buffer.storage.take
          repr.payload.length = repr.payload ∧
      ((s.collect src_addr dst_addr repr).2).endpoint = s.endpoint ∧
      ((s.collect src_addr dst_addr repr).2).tx_buffer = s.tx_buffer) ∧
    (repr.dst_port = s.endpoint.port →
      (s.endpoint.addr.is_unspecified = true ∨ s.endpoint.addr = dst_addr) →
      ¬(s.rx_buffer.endpoint.addr = Address.Invalid ∧
        repr.payload.length ≤ s.rx_buffer.storage.length) →
      s.collect src_addr dst_addr repr = (Except.error Error.Exhausted, s)) := by
  have hnotmatch : ∀ hport : repr.dst_port = s.endpoint.port,
      ¬(repr.dst_port ≠ s.endpoint.port) := fun hport hne => hne hport
  have hnotaddr : (s.endpoint.addr.is_unspecified = true ∨ s.endpoint.addr = dst_addr) →
      ¬(s.endpoint.addr.is_unspecified = false ∧ s.endpoint.addr ≠ dst_addr) := by
    rintro hacc ⟨h1, h2⟩
    rcases hacc with ht | heq
    · rw [ht] at h1
      exact Bool.noConfusion h1
    · exact h2 heq
  refine ⟨?_, ?_, ?_, ?_⟩
  · intro hport
    unfold Socket.collect
    rw [if_pos hport]
  · intro hport hconc hne
    unfold Socket.collect
    rw [if_neg (hnotmatch hport), if_pos ⟨hconc, hne⟩]
  · intro hport hacc hfree hfit
    have hok := UnitaryBuffer.enqueue_of_ok s.rx_buffer
      { addr := src_addr, port := repr.src_port } repr.payload.length
      (fun _buffer => (repr.payload, Except.ok ())) () hfree hfit rfl
    unfold Socket.collect
    rw [if_neg (hnotmatch hport), if_neg (hnotaddr hacc), hok]
    refine ⟨rfl, rfl, ?_, rfl, rfl⟩
    show (overwrite s.rx_buffer.storage (repr.payload.take repr.payload.length)).take
        repr.payload.length = repr.payload
    rw [List.take_length]
    exact overwrite_take s.rx_buffer.storage repr.payload hfit
  · intro hport hacc hfail
    have hex := UnitaryBuffer.enqueue_of_unavailable s.rx_buffer
      { addr := src_addr, port := repr.src_port } repr.payload.length
      (fun _buffer => (repr.payload, Except.ok ())) hfail
    unfold Socket.collect
    rw [if_neg (hnotmatch hport), if_neg (hnotaddr hacc), hex]

/-- Witness for C4 at scenario S2: the datagram is accepted and the payload
lands in the rx storage. -/
theorem C4_collect_filter_and_enqueue_witness :
    (sockS2.collect (Address.Ipv4 5) (Address.Ipv4 1) reprS2).1 = Except.ok () :=
  ((C4_collect_filter_and_enqueue sockS2 (Address.Ipv4 5) (Address.Ipv4 1) reprS2).2.2.1
      rfl (Or.inl rfl) rfl (by decide)).1

/-- C5: for a socket whose rx buffer holds a packet, recv_slice with an out
slice shorter than the packet returns Exhausted, leaves the out slice as it
was and still consumes the packet; with an out slice at least as long it
returns the packet length with the source endpoint, copies the packet octets
into the front of the out slice, and also consumes the packet. -/
theorem C5_recv_slice_truncation_and_success (s : Socket) (out : List Nat)
    (hocc : s.rx_buffer.endpoint.addr ≠ Address.Invalid) :
    (out.length < (s.rx_buffer.storage.take s.rx_buffer.size).length →
      (s.recv_slice out).1 = Except.error Error.Exhausted ∧
      (s.recv_slice out).2.1 = out ∧
      ((s.recv_slice out).2.2).rx_buffer.endpoint.addr = Address.Invalid) ∧
    ((s.rx_buffer.storage.take s.rx_buffer.size).length ≤ out.length →
      (s.recv_slice out).1 =
        Except.ok ((s.rx_buffer.storage.take s.rx_buffer.size).length,
                   s.rx_buffer.endpoint) ∧
      (s.recv_slice out).2.1 =
        overwrite out (s.rx_buffer.storage.take s.rx_buffer.size) ∧
      ((s.recv_slice out).2.1).take
          (s.rx_buffer.storage.take s.rx_buffer.size).length =
        s.rx_buffer.storage.take s.rx_buffer.size ∧
      ((s.recv_slice out).2.2).rx_buffer.endpoint.addr = Address.Invalid) := by
  have hdeq := UnitaryBuffer.dequeue_of_occupied s.rx_buffer (recvSliceClosure out) hocc
  constructor
  · intro hlt
    have hres : (s.rx_buffer.dequeue (recvSliceClosure out)).1 =
        Except.error Error.Exhausted := by
      rw [hdeq]
      show recvSliceClosure out s.rx_buffer.endpoint
          (s.rx_buffer.storage.take s.rx_buffer.size) = _
      unfold recvSliceClosure
      rw [if_pos hlt]
    rw [Socket.recv_slice_of_error s out Error.Exhausted hres]
    refine ⟨rfl, rfl, ?_⟩
    show ((s.rx_buffer.dequeue (recvSliceClosure out)).2).endpoint.addr = _
    rw [hdeq]
    rfl
  · intro hge
    have hres : (s.rx_buffer.dequeue (recvSliceClosure out)).1 =
        Except.ok (((s.rx_buffer.storage.take s.rx_buffer.size).length,
                    s.rx_buffer.endpoint),
                   overwrite out (s.rx_buffer.storage.take s.rx_buffer.size)) := by
      rw [hdeq]
      show recvSliceClosure out s.rx_buffer.endpoint
          (s.rx_buffer.storage.take s.rx_buffer.size) = _
      unfold recvSliceClosure
      rw [if_neg (Nat.not_lt.mpr hge)]
    rw [Socket.recv_slice_of_ok s out _ hres]
    refine ⟨rfl, rfl, ?_, ?_⟩
    · exact overwrite_take out (s.rx_buffer.storage.take s.rx_buffer.size) hge
    · show ((s.rx_buffer.dequeue (recvSliceClosure out)).2).endpoint.addr = _
      rw [hdeq]
      rfl

/-- Witness for C5 at the concrete occupied socket: a three-octet out slice
receives the two-octet packet. -/
theorem C5_recv_slice_witness :
    (sockRx.recv_slice [0, 0, 0]).1 = Except.ok (2, occupiedBuf.endpoint) :=
  ((C5_recv_slice_truncation_and_success sockRx [0, 0, 0] (by decide)).2 (by decide)).1

/-- C9: the size field is 0 after construction, no enqueue or dequeue ever
writes it, after any sequence of operations from a fresh buffer it is still
0, an occupied dequeue with size field 0 hands its callback the empty octet
slice, and dispatch on a socket whose occupied tx buffer has size field 0
hands its callback a repr with empty payload. -/
theorem C9_size_never_written :
    (∀ st : List Nat, (UnitaryBuffer.new st).size = 0) ∧
    (∀ {R : Type} (buf : UnitaryBuffer) (ep : Endpoint) (size : Nat)
       (f : List Nat → List Nat × Except Error R),
       ((buf.enqueue ep size f).2).size = buf.size) ∧
    (∀ {R : Type} (buf : UnitaryBuffer) (f : Endpoint → List Nat → Except Error R),
       ((buf.dequeue f).2).size = buf.size) ∧
    (∀ (st : List Nat) (ops : List BufOp),
       (runOps (UnitaryBuffer.new st) ops).size = 0) ∧
    (∀ {R : Type} (buf : UnitaryBuffer) (f : Endpoint → List Nat → Except Error R),
       buf.size = 0 → buf.endpoint.addr ≠ Address.Invalid →
       (buf.dequeue f).1 = f buf.endpoint []) ∧
    (∀ {R : Type} (s : Socket) (f : Address → Address → UdpRepr → Except Error R),
       s.tx_buffer.size = 0 → s.tx_buffer.endpoint.addr ≠ Address.Invalid →
       (s.dispatch f).1 =
         f s.endpoint.addr s.tx_buffer.endpoint.addr
           { src_port := s.endpoint.port, dst_port := s.tx_buffer.endpoint.port,
             payload := [] }) := by
  refine ⟨fun st => rfl, ?_, ?_, ?_, ?_, ?_⟩
  · intro R buf ep size f
    exact UnitaryBuffer.enqueue_size buf ep size f
  · intro R buf f
    exact UnitaryBuffer.dequeue_size buf f
  · intro st ops
    rw [runOps_size]
    rfl
  · intro R buf f h0 hne
    rw [UnitaryBuffer.dequeue_of_occupied buf f hne]
    show f buf.endpoint (buf.storage.take buf.size) = _
    rw [h0]
    rfl
  · intro R s f h0 hne
    show (s.tx_buffer.dequeue (dispatchClosure s.endpoint f)).1 = _
    rw [UnitaryBuffer.dequeue_of_occupied s.tx_buffer (dispatchClosure s.endpoint f) hne]
    show dispatchClosure s.endpoint f s.tx_buffer.endpoint
        (s.tx_buffer.storage.take s.tx_buffer.size) = _
    rw [h0]
    rfl

/-- Witness for C9 at the concrete occupied buffer with size field 0: the
dequeue callback receives the empty slice. -/
theorem C9_size_never_written_witness :
    (zeroSizeBuf.dequeue (fun e b => Except.ok (e, b))).1 =
      Except.ok (zeroSizeBuf.endpoint, []) :=
  C9_size_never_written.2.2.2.2.1 zeroSizeBuf (fun e b => Except.ok (e, b))
    rfl (by decide)

/-- C10: enqueue with an endpoint whose address is Invalid on an empty buffer
with a fitting size runs the closure and returns Ok, yet the buffer stays
observably empty: the following dequeue returns Exhausted leaving the state
as it was, and a further fitting enqueue with a succeeding closure succeeds
again. -/
theorem C10_invalid_endpoint_enqueue {R : Type} (buf : UnitaryBuffer)
    (ep : Endpoint) (size : Nat) (f : List Nat → List Nat × Except Error R) (r : R)
    (hempty : buf.endpoint.addr = Address.Invalid)
    (hsize : size ≤ buf.storage.length)
    (hep : ep.addr = Address.Invalid)
    (hf : (f (buf.storage.take size)).2 = Except.ok r) :
    (buf.enqueue ep size f).1 = Except.ok r ∧
    (∀ {S : Type} (g : Endpoint → List Nat → Except Error S),
      ((buf.enqueue ep size f).2).dequeue g =
        (Except.error Error.Exhausted, (buf.enqueue ep size f).2)) ∧
    (∀ {S : Type} (ep2 : Endpoint) (size2 : Nat)
       (g : List Nat → List Nat × Except Error S) (r2 : S),
       size2 ≤ ((buf.enqueue ep size f).2).storage.length →
       (g (((buf.enqueue ep size f).2).storage.take size2)).2 = Except.ok r2 →
       (((buf.enqueue ep size f).2).enqueue ep2 size2 g).1 = Except.ok r2) := by
  rw [UnitaryBuffer.enqueue_of_ok buf ep size f r hempty hsize hf]
  refine ⟨rfl, ?_, ?_⟩
  · intro S g
    exact UnitaryBuffer.dequeue_of_empty _ g hep
  · intro S ep2 size2 g r2 hsz2 hg2
    rw [UnitaryBuffer.enqueue_of_ok _ ep2 size2 g r2 hep hsz2 hg2]

/-- Witness for C10 at a concrete buffer and the default endpoint. -/
theorem C10_invalid_endpoint_enqueue_witness :
    ((UnitaryBuffer.new [0]).enqueue defaultEndpoint 1
        (fun _ => ([9], Except.ok ()))).1 = Except.ok () :=
  (C10_invalid_endpoint_enqueue (UnitaryBuffer.new [0]) defaultEndpoint 1
      (fun _ => ([9], Except.ok ())) () rfl (by decide) rfl rfl).1

end Udp
